import Mathlib

/-!
Shallow embedding of the kriton-backend analytics pipeline
(`extractor_lemas.py`, `analisis_engine.py`, `query_generator.py`,
`conversacion_manager.py`) and proofs about it.

Conventions of the embedding:
* Python dict values flowing through `json.loads` become the inductive
  `Kriton.Json`; Python exceptions become the `Except Kriton.PyErr` monad
  (a `.error` value is a raised exception reaching that point).
* `datetime.now()` and timestamps are threaded as explicit parameters.
* `str.lower` is modelled character-wise for the alphabet this code base
  uses (ASCII plus the accented Spanish letters appearing in the sources).
* Formatted insight messages are modelled as constructors of
  `Kriton.Insight` carrying exactly the data interpolated into the
  corresponding Python f-string.
-/

namespace Kriton

/-- Model of Python str.lower, character-wise, covering ASCII letters and the
accented Spanish uppercase letters relevant to this code base. -/
def pyLowerChar (c : Char) : Char :=
  if 'A' ≤ c ∧ c ≤ 'Z' then Char.ofNat (c.toNat + 32)
  else if c = 'Á' then 'á'
  else if c = 'É' then 'é'
  else if c = 'Í' then 'í'
  else if c = 'Ó' then 'ó'
  else if c = 'Ú' then 'ú'
  else if c = 'Ñ' then 'ñ'
  else if c = 'Ü' then 'ü'
  else c

/-- Model of Python str.lower on strings. -/
def pyLower (s : String) : String :=
  String.mk (s.data.map pyLowerChar)

/-- Does the character list `hay` contain `needle` as a contiguous sublist?
Models the Python substring operator `needle in hay`. -/
def charsContain (hay needle : List Char) : Bool :=
  match hay with
  | [] => needle.isEmpty
  | _ :: t => needle.isPrefixOf hay || charsContain t needle

/-- Python `needle in hay` on strings. -/
def strContains (hay needle : String) : Bool :=
  charsContain hay.data needle.data

/-- Python `any(x in hay for x in needles)`. -/
def containsAny (hay : String) (needles : List String) : Bool :=
  needles.any (fun n => strContains hay n)

/-! ## Dates (model of the small slice of `datetime` the source uses) -/

/-- A Gregorian calendar date, standing for `datetime.now()` values. -/
structure PyDate where
  year : Nat
  month : Nat
  day : Nat
deriving DecidableEq, Repr

def isLeap (y : Nat) : Bool :=
  (y % 4 = 0 && y % 100 ≠ 0) || y % 400 = 0

def daysInMonth (y m : Nat) : Nat :=
  if m = 2 then (if isLeap y then 29 else 28)
  else if m = 4 ∨ m = 6 ∨ m = 9 ∨ m = 11 then 30
  else 31

/-- The calendar day before `d` (model of `d - timedelta(days=1)`). -/
def prevDay (d : PyDate) : PyDate :=
  if 1 < d.day then ⟨d.year, d.month, d.day - 1⟩
  else if 1 < d.month then ⟨d.year, d.month - 1, daysInMonth d.year (d.month - 1)⟩
  else ⟨d.year - 1, 12, 31⟩

/-- Model of `d - timedelta(days=n)`. -/
def subDays (n : Nat) (d : PyDate) : PyDate :=
  match n with
  | 0 => d
  | n + 1 => prevDay (subDays n d)

/-- Left-pad a numeral to two digits, as `%m` does. -/
def pad2 (n : Nat) : String :=
  if n < 10 then "0" ++ toString n else toString n

/-- Left-pad a numeral to four digits, as `%Y` does. -/
def pad4 (n : Nat) : String :=
  if n < 10 then "000" ++ toString n
  else if n < 100 then "00" ++ toString n
  else if n < 1000 then "0" ++ toString n
  else toString n

/-- Model of `d.strftime("%Y-%m")`. -/
def fmtYM (d : PyDate) : String :=
  pad4 d.year ++ "-" ++ pad2 d.month

/-! ## Topic extractor: cache and period resolver (`extractor_lemas.py`) -/

/-- A single-quote character, used when rebuilding SQL text literals. -/
def sq : String := String.singleton (Char.ofNat 39)

/-- The fixed cache of canonical topic to variant list, in insertion order
(`ExtractorLemas.cache_lemas`). -/
def cache_lemas : List (String × List String) :=
  [ ("alquiler", ["alquileres", "renta", "arriendo", "alquilar"]),
    ("juicio", ["juicios", "demanda", "demandas", "legal", "abogado", "judicial"]),
    ("pago", ["pagos", "pagar", "abonar", "cancelar", "saldar", "abono"]),
    ("trabajo", ["empleo", "desempleo", "laboral", "trabajando", "empleado"]),
    ("deuda", ["deudas", "debe", "adeuda", "prestamo", "crédito", "préstamo"]),
    ("telefono", ["teléfono", "llamada", "llamadas", "contacto", "comunicación"]),
    ("promesa", ["promesas", "compromiso", "comprometió", "acordar"]) ]

/-- Does the cache entry `e` match lowercased question `lq`? The source
checks every variant and then the base topic itself as substrings. -/
def cacheEntryMatches (lq : String) (e : String × List String) : Bool :=
  (e.2 ++ [e.1]).any (fun v => strContains lq v)

/-- `ExtractorLemas.buscar_en_cache`: first cache entry (in insertion order)
one of whose variants, or whose base topic, occurs in the lowercased
question; returns the base topic. -/
def buscar_en_cache (pregunta : String) : Option String :=
  let lq := pyLower pregunta
  (cache_lemas.find? (fun e => cacheEntryMatches lq e)).map (fun e => e.1)

/-- A period descriptor dict `{tipo, valor, filtro_sql}`. -/
structure Periodo where
  tipo : String
  valor : String
  filtro_sql : String
deriving DecidableEq, Repr

/-- The SQL filter f-string
`DATE_TRUNC('month', fecha::date) = '<valor>-01'::date` built inline at the
three return sites of `extraer_periodo_temporal`. -/
def filtroMes (valor : String) : String :=
  "DATE_TRUNC(" ++ sq ++ "month" ++ sq ++ ", fecha::date) = " ++ sq ++ valor ++ "-01" ++ sq ++ "::date"

/-- `meses_map` from the source, in insertion order. -/
def meses_map : List (String × String) :=
  [ ("enero", "01"), ("febrero", "02"), ("marzo", "03"), ("abril", "04"),
    ("mayo", "05"), ("junio", "06"), ("julio", "07"), ("agosto", "08"),
    ("septiembre", "09"), ("octubre", "10"), ("noviembre", "11"), ("diciembre", "12") ]

/-- `ExtractorLemas.extraer_periodo_temporal`, with `datetime.now()` passed
explicitly as `now`. -/
def extraer_periodo_temporal (now : PyDate) (pregunta : String) : Option Periodo :=
  let lq := pyLower pregunta
  if containsAny lq ["este mes", "mes actual", "del mes"] then
    some ⟨"mes", fmtYM now, filtroMes (fmtYM now)⟩
  else if containsAny lq ["mes pasado", "último mes", "anterior"] then
    let mesPasado := fmtYM (subDays 30 now)
    some ⟨"mes", mesPasado, filtroMes mesPasado⟩
  else
    match meses_map.find? (fun e => strContains lq e.1) with
    | some e =>
        let valor := toString now.year ++ "-" ++ e.2
        some ⟨"mes", valor, filtroMes valor⟩
    | none => none

/-! ## JSON values and a model of `json.loads` -/

/-- A decoded JSON value (the possible results of `json.loads`). -/
inductive Json where
  | null : Json
  | bool (b : Bool) : Json
  | num (q : Rat) : Json
  | str (s : String) : Json
  | arr (l : List Json) : Json
  | obj (l : List (String × Json)) : Json

/-- Python truthiness of a decoded JSON value. -/
def pyTruthy : Json → Bool
  | .null => false
  | .bool b => b
  | .num q => q ≠ 0
  | .str s => s ≠ ""
  | .arr l => !l.isEmpty
  | .obj l => !l.isEmpty

/-- JSON/Python whitespace. -/
def isWs (c : Char) : Bool :=
  c = ' ' || c = '\t' || c = '\n' || c = '\r'

def skipWs (cs : List Char) : List Char :=
  cs.dropWhile isWs

def isDigit (c : Char) : Bool :=
  '0' ≤ c && c ≤ '9'

def digitsToNat (cs : List Char) : Nat :=
  cs.foldl (fun acc c => acc * 10 + (c.toNat - 48)) 0

def hexVal (c : Char) : Option Nat :=
  if isDigit c then some (c.toNat - 48)
  else if 'a' ≤ c && c ≤ 'f' then some (c.toNat - 87)
  else if 'A' ≤ c && c ≤ 'F' then some (c.toNat - 55)
  else none

/-- Parse a JSON string body (the opening quote already consumed). -/
def pStrAux : Nat → List Char → List Char → Option (String × List Char)
  | 0, _, _ => none
  | _ + 1, _, [] => none
  | fuel + 1, acc, c :: rest =>
    if c = '"' then some (String.mk acc.reverse, rest)
    else if c = '\\' then
      match rest with
      | [] => none
      | e :: rest2 =>
        if e = '"' then pStrAux fuel ('"' :: acc) rest2
        else if e = '\\' then pStrAux fuel ('\\' :: acc) rest2
        else if e = '/' then pStrAux fuel ('/' :: acc) rest2
        else if e = 'b' then pStrAux fuel ('\x08' :: acc) rest2
        else if e = 'f' then pStrAux fuel ('\x0c' :: acc) rest2
        else if e = 'n' then pStrAux fuel ('\n' :: acc) rest2
        else if e = 'r' then pStrAux fuel ('\r' :: acc) rest2
        else if e = 't' then pStrAux fuel ('\t' :: acc) rest2
        else if e = 'u' then
          match rest2 with
          | h1 :: h2 :: h3 :: h4 :: rest3 =>
            match hexVal h1, hexVal h2, hexVal h3, hexVal h4 with
            | some a, some b, some c', some d =>
                pStrAux fuel (Char.ofNat (((a * 16 + b) * 16 + c') * 16 + d) :: acc) rest3
            | _, _, _, _ => none
          | _ => none
        else none
    else pStrAux fuel (c :: acc) rest

/-- Parse an optional exponent suffix and finish a JSON number. -/
def pExp (neg : Bool) (base : Rat) (cs : List Char) : Option (Rat × List Char) :=
  match cs with
  | 'e' :: t | 'E' :: t =>
    let (eneg, t1) := match t with
      | '-' :: t2 => (true, t2)
      | '+' :: t2 => (false, t2)
      | _ => (false, t)
    let eds := t1.takeWhile isDigit
    if eds.isEmpty then none
    else
      let e := digitsToNat eds
      let v := if eneg then base / (10 : Rat) ^ e else base * (10 : Rat) ^ e
      some (if neg then -v else v, t1.dropWhile isDigit)
  | _ => some (if neg then -base else base, cs)

/-- Parse a JSON number starting at `cs` (first char a digit or minus). -/
def pNum (cs : List Char) : Option (Rat × List Char) :=
  let (neg, cs1) := match cs with
    | '-' :: t => (true, t)
    | _ => (false, cs)
  let intDigits := cs1.takeWhile isDigit
  let cs2 := cs1.dropWhile isDigit
  if intDigits.isEmpty then none
  else
    let intPart : Rat := (digitsToNat intDigits : Nat)
    match cs2 with
    | '.' :: t =>
      let fds := t.takeWhile isDigit
      if fds.isEmpty then none
      else
        let base := intPart + (digitsToNat fds : Rat) / (10 : Rat) ^ fds.length
        pExp neg base (t.dropWhile isDigit)
    | _ => pExp neg intPart cs2

mutual
/-- Parse one JSON value. -/
def pVal : Nat → List Char → Option (Json × List Char)
  | 0, _ => none
  | fuel + 1, cs =>
    match skipWs cs with
    | 'n' :: 'u' :: 'l' :: 'l' :: rest => some (.null, rest)
    | 't' :: 'r' :: 'u' :: 'e' :: rest => some (.bool true, rest)
    | 'f' :: 'a' :: 'l' :: 's' :: 'e' :: rest => some (.bool false, rest)
    | '"' :: rest =>
      match pStrAux (rest.length + 1) [] rest with
      | some (s, r) => some (.str s, r)
      | none => none
    | '[' :: rest =>
      (match skipWs rest with
       | ']' :: r2 => some (.arr [], r2)
       | _ =>
         match pArrItems fuel rest with
         | some (items, r2) => some (.arr items, r2)
         | none => none)
    | c :: rest =>
      if c = '\x7b' then
        match skipWs rest with
        | c2 :: r2 =>
          if c2 = '\x7d' then some (.obj [], r2)
          else
            (match pObjItems fuel rest with
             | some (items, r3) => some (.obj items, r3)
             | none => none)
        | [] => none
      else
        match pNum (c :: rest) with
        | some (q, r) => some (.num q, r)
        | none => none
    | [] => none

/-- Parse comma-separated array items, consuming the closing bracket. -/
def pArrItems : Nat → List Char → Option (List Json × List Char)
  | 0, _ => none
  | fuel + 1, cs =>
    match pVal fuel cs with
    | none => none
    | some (v, rest) =>
      match skipWs rest with
      | ',' :: r2 =>
        (match pArrItems fuel r2 with
         | some (items, r3) => some (v :: items, r3)
         | none => none)
      | ']' :: r2 => some ([v], r2)
      | _ => none

/-- Parse comma-separated object members, consuming the closing brace. -/
def pObjItems : Nat → List Char → Option (List (String × Json) × List Char)
  | 0, _ => none
  | fuel + 1, cs =>
    match skipWs cs with
    | '"' :: rest =>
      match pStrAux (rest.length + 1) [] rest with
      | none => none
      | some (k, r1) =>
        match skipWs r1 with
        | ':' :: r2 =>
          (match pVal fuel r2 with
           | none => none
           | some (v, r3) =>
             match skipWs r3 with
             | ',' :: r4 =>
               (match pObjItems fuel r4 with
                | some (items, r5) => some ((k, v) :: items, r5)
                | none => none)
             | c :: r4 =>
               if c = '\x7d' then some ([(k, v)], r4) else none
             | [] => none)
        | _ => none
    | _ => none
end

/-- Model of `json.loads`: `none` is a raised-and-caught decode error,
`some` the decoded value. Trailing non-whitespace is rejected. -/
def parseJson (s : String) : Option Json :=
  match pVal (2 * s.length + 4) s.data with
  | some (j, rest) => if (skipWs rest).isEmpty then some j else none
  | none => none

/-! ## Model fallback (`extraer_con_llm` via the Gemini backend) -/

/-- Python whitespace for `str.strip` and the regex class `\s`. -/
def isPySpace (c : Char) : Bool :=
  c = ' ' || c = '\t' || c = '\n' || c = '\r' || c = '\x0b' || c = '\x0c'

/-- Model of Python `str.strip()`. -/
def pyStrip (s : String) : String :=
  String.mk (((s.data.dropWhile isPySpace).reverse.dropWhile isPySpace).reverse)

/-- Replace every non-overlapping occurrence of `pat` (left to right). -/
def replaceAllAux : Nat → List Char → List Char → List Char → List Char
  | 0, _, _, s => s
  | _ + 1, _, _, [] => []
  | fuel + 1, pat, rep, c :: t =>
    if !pat.isEmpty && pat.isPrefixOf (c :: t) then
      rep ++ replaceAllAux fuel pat rep ((c :: t).drop pat.length)
    else
      c :: replaceAllAux fuel pat rep t

/-- Model of Python `s.replace(pat, rep)` for non-empty `pat`. -/
def pyReplace (s pat rep : String) : String :=
  String.mk (replaceAllAux (s.length + 1) pat.data rep.data s.data)

/-- Try to match the regex `"lema":\s*"([^"]+)"` at the head of `cs`,
returning the capture. -/
def lemaMatchAt (cs : List Char) : Option String :=
  match cs with
  | '"' :: 'l' :: 'e' :: 'm' :: 'a' :: '"' :: ':' :: rest =>
    match (rest.dropWhile isPySpace) with
    | '"' :: r2 =>
      let cap := r2.takeWhile (fun c => c ≠ '"')
      match r2.dropWhile (fun c => c ≠ '"') with
      | '"' :: _ => if cap.isEmpty then none else some (String.mk cap)
      | _ => none
    | _ => none
  | _ => none

/-- Model of `re.search(r".lema.:\s*.([^"]+).", s)`: first position where
the pattern matches, returning group 1. -/
def regexLemaAux : List Char → Option String
  | [] => none
  | c :: t =>
    match lemaMatchAt (c :: t) with
    | some m => some m
    | none => regexLemaAux t

def regexLema (s : String) : Option String :=
  regexLemaAux s.data

/-- The behaviour of one `generate_content` call: either it raises (transport
error, timeout, API error, bad response object) or it yields response text. -/
inductive ModelResponse where
  | raise : ModelResponse
  | ok (text : String) : ModelResponse

/-- `ExtractorLemas._extraer_con_gemini`, with the collaborator call outcome
passed as `resp`. Returns the Python return value: `none` for the `return
None` paths (all raised exceptions are caught), otherwise the decoded JSON
(which need not be an object) or the regex-fallback dict with confidence
0.7. Assumes the API key is configured, as the spec requires of a usable
deployment. -/
def extraer_con_gemini (resp : ModelResponse) : Option Json :=
  match resp with
  | .raise => none
  | .ok text =>
    let t1 := pyStrip text
    let t2 := pyStrip (pyReplace (pyReplace t1 "```json" "") "```" "")
    match parseJson t2 with
    | some j => some j
    | none =>
      match regexLema t2 with
      | some m => some (.obj [("lema", .str m), ("confianza", .num ((7 : Rat) / 10))])
      | none => none

/-- Exceptions that can escape the embedded code. -/
inductive PyErr where
  | keyError (k : String) : PyErr
  | typeError : PyErr
  | valueError : PyErr
deriving DecidableEq, Repr

/-- Python `d[k]` on a decoded JSON value: lookup on objects (KeyError when
absent), TypeError on values that do not support string indexing. -/
def getItem (j : Json) (k : String) : Except PyErr Json :=
  match j with
  | .obj l =>
    match l.lookup k with
    | some v => .ok v
    | none => .error (.keyError k)
  | _ => .error .typeError

/-- Python `d.get(k, default)` on an object; non-objects never reach this
call in the embedded code. -/
def dictGetD (j : Json) (k : String) (default : Json) : Json :=
  match j with
  | .obj l => (l.lookup k).getD default
  | _ => default

/-- The extraction-result dict built by `analizar_pregunta`:
`{lema, periodo, metodo, confianza}`. -/
structure ExtractionResult where
  lema : Json
  periodo : Option Periodo
  metodo : String
  confianza : Json

/-- `ExtractorLemas.analizar_pregunta` with the model collaborator outcome
`resp` and the current date `now` passed explicitly. A `.error` result is an
exception escaping `analizar_pregunta` to its caller. -/
def analizar_pregunta (resp : ModelResponse) (now : PyDate) (pregunta : String) :
    Except PyErr ExtractionResult :=
  match buscar_en_cache pregunta with
  | some lemaCache =>
    .ok ⟨.str lemaCache, extraer_periodo_temporal now pregunta, "cache", .num 1⟩
  | none =>
    match extraer_con_gemini resp with
    | some resultadoLlm =>
      if pyTruthy resultadoLlm then
        match getItem resultadoLlm "lema" with
        | .ok l =>
          .ok ⟨l, extraer_periodo_temporal now pregunta, "llm",
               dictGetD resultadoLlm "confianza" (.num ((8 : Rat) / 10))⟩
        | .error e => .error e
      else
        .ok ⟨.null, extraer_periodo_temporal now pregunta, "fallback", .num 0⟩
    | none =>
      .ok ⟨.null, extraer_periodo_temporal now pregunta, "fallback", .num 0⟩

/-! ## Query synthesizer (`query_generator.py`) -/

/-- `QueryGenerator.generar_analisis_lema`. The SQL text is rebuilt
verbatim; `sq` is a single-quote character. -/
def generar_analisis_lema (lema : String) (periodo : Option Periodo) (limite : Nat) : String :=
  let q1 :=
    "\n-- Análisis del lema: " ++ lema ++ "\nWITH casos_filtrados AS (\n    SELECT \n        uid,\n        fecha::date as fecha,\n        region,\n        supervisor,\n        temas_detectados,\n        duracion_seg,\n        lemas,\n        similarity(lemas, " ++ sq ++ lema ++ sq ++ ") as score\n    FROM transcripciones_procesadas\n    WHERE similarity(lemas, " ++ sq ++ lema ++ sq ++ ") > 0.4\n"
  let q2 :=
    match periodo with
    | some p => if p.filtro_sql ≠ "" then q1 ++ "      AND " ++ p.filtro_sql ++ "\n" else q1
    | none => q1
  q2 ++ "),\nagregacion_temas AS (\n    SELECT \n        temas_detectados,\n        COUNT(*) as frecuencia,\n        AVG(duracion_seg) as duracion_promedio,\n        AVG(score) as similitud_promedio\n    FROM casos_filtrados\n    GROUP BY temas_detectados\n    ORDER BY frecuencia DESC\n    LIMIT " ++ toString limite ++ "\n),\ndistribucion_temporal AS (\n    SELECT \n        DATE_TRUNC(" ++ sq ++ "month" ++ sq ++ ", fecha) as mes,\n        COUNT(*) as casos,\n        AVG(duracion_seg) as duracion_promedio\n    FROM casos_filtrados\n    GROUP BY DATE_TRUNC(" ++ sq ++ "month" ++ sq ++ ", fecha)\n    ORDER BY mes\n)\nSELECT \n    " ++ sq ++ "temas" ++ sq ++ " as tipo_resultado,\n    json_agg(\n        json_build_object(\n            " ++ sq ++ "temas" ++ sq ++ ", temas_detectados,\n            " ++ sq ++ "frecuencia" ++ sq ++ ", frecuencia,\n            " ++ sq ++ "duracion_promedio" ++ sq ++ ", ROUND(duracion_promedio::numeric, 2),\n            " ++ sq ++ "similitud" ++ sq ++ ", ROUND(similitud_promedio::numeric, 3)\n        ) ORDER BY frecuencia DESC\n    ) as datos\nFROM agregacion_temas\n\nUNION ALL\n\nSELECT \n    " ++ sq ++ "temporal" ++ sq ++ " as tipo_resultado,\n    json_agg(\n        json_build_object(\n            " ++ sq ++ "mes" ++ sq ++ ", mes::text,\n            " ++ sq ++ "casos" ++ sq ++ ", casos,\n            " ++ sq ++ "duracion_promedio" ++ sq ++ ", ROUND(duracion_promedio::numeric, 2)\n        ) ORDER BY mes\n    ) as datos\nFROM distribucion_temporal;\n"

/-- `QueryGenerator.generar_comparacion_periodos`. -/
def generar_comparacion_periodos (lema periodo1 periodo2 : String) : String :=
  "\n-- Comparación: " ++ lema ++ " entre " ++ periodo1 ++ " y " ++ periodo2 ++ "\nWITH periodo_1 AS (\n    SELECT \n        COUNT(*) as casos,\n        AVG(duracion_seg) as duracion_promedio,\n        " ++ sq ++ periodo1 ++ sq ++ " as periodo\n    FROM transcripciones_procesadas\n    WHERE similarity(lemas, " ++ sq ++ lema ++ sq ++ ") > 0.4\n      AND DATE_TRUNC(" ++ sq ++ "month" ++ sq ++ ", fecha::date) = " ++ sq ++ periodo1 ++ "-01" ++ sq ++ "::date\n),\nperiodo_2 AS (\n    SELECT \n        COUNT(*) as casos,\n        AVG(duracion_seg) as duracion_promedio,\n        " ++ sq ++ periodo2 ++ sq ++ " as periodo\n    FROM transcripciones_procesadas\n    WHERE similarity(lemas, " ++ sq ++ lema ++ sq ++ ") > 0.4\n      AND DATE_TRUNC(" ++ sq ++ "month" ++ sq ++ ", fecha::date) = " ++ sq ++ periodo2 ++ "-01" ++ sq ++ "::date\n)\nSELECT \n    periodo,\n    casos,\n    ROUND(duracion_promedio::numeric, 2) as duracion_promedio,\n    ROUND(\n        100.0 * (casos - LAG(casos) OVER (ORDER BY periodo)) / \n        NULLIF(LAG(casos) OVER (ORDER BY periodo), 0),\n        2\n    ) as variacion_porcentual\nFROM (\n    SELECT * FROM periodo_1\n    UNION ALL\n    SELECT * FROM periodo_2\n) combined\nORDER BY periodo;\n"

/-- `QueryGenerator.generar_estadisticas_generales`. -/
def generar_estadisticas_generales : String :=
  "\n-- Estadísticas generales\nSELECT \n    COUNT(*) as total_registros,\n    COUNT(DISTINCT fecha::date) as dias_unicos,\n    MIN(fecha::date) as fecha_min,\n    MAX(fecha::date) as fecha_max,\n    COUNT(DISTINCT region) as regiones,\n    COUNT(DISTINCT supervisor) as supervisores,\n    ROUND(AVG(duracion_seg)::numeric, 2) as duracion_promedio,\n    ROUND(AVG(num_turnos_cliente)::numeric, 2) as turnos_promedio\nFROM transcripciones_procesadas;\n"

/-! ## Analysis engine (`analisis_engine.py`) -/

/-- A row of the tabular result for `analizar_lema`: the two columns the
synthesized query produces. The payload is either a string still to be
JSON-decoded or an already structured value, exactly the two cases the
`isinstance(row[.datos.], str)` test distinguishes. -/
inductive Datos where
  | str (s : String) : Datos
  | native (j : Json) : Datos

structure Row where
  tipo_resultado : String
  datos : Datos

/-- The keyed result map built from the rows. -/
def ResMap := List (String × Json)

/-- `d[k] = v` on a Python dict modelled as an association list with unique
keys: overwrite the binding if present, else append. -/
def setKey {α : Type} (k : String) (v : α) : List (String × α) → List (String × α)
  | [] => [(k, v)]
  | (k1, v1) :: t => if k1 = k then (k, v) :: t else (k1, v1) :: setKey k v t

/-- `d.get(k)` / `k in d` on a Python dict modelled as an association
list. -/
def getKey {α : Type} (k : String) : List (String × α) → Option α
  | [] => none
  | (k1, v1) :: t => if k1 = k then some v1 else getKey k t

/-- `del d[k]`: remove the (unique) binding of `k`. -/
def delKey {α : Type} (k : String) : List (String × α) → List (String × α)
  | [] => []
  | (k1, v1) :: t => if k1 = k then t else (k1, v1) :: delKey k t

/-- The result-shaping loop of `analizar_lema`: decode string payloads with
`json.loads` (an undecodable string raises ValueError, uncaught here) and
index by discriminator. -/
def buildResultados : List Row → List (String × Json) → Except PyErr (List (String × Json))
  | [], acc => .ok acc
  | r :: rs, acc =>
    match r.datos with
    | .str s =>
      match parseJson s with
      | some j => buildResultados rs (setKey r.tipo_resultado j acc)
      | none => .error .valueError
    | .native j => buildResultados rs (setKey r.tipo_resultado j acc)

/-- Numeric coercion for Python arithmetic and numeric comparison on a
decoded JSON value; Python treats booleans as integers, everything else
raises TypeError in the arithmetic this code performs. -/
def asNum : Json → Except PyErr Rat
  | .num q => .ok q
  | .bool b => .ok (if b then 1 else 0)
  | _ => .error .typeError

/-- Python `len(x)` on a decoded JSON value. -/
def pyLen : Json → Except PyErr Nat
  | .arr l => .ok l.length
  | .obj l => .ok l.length
  | .str s => .ok s.length
  | _ => .error .typeError

/-- Python `x[i]` for a non-negative index on a decoded JSON sequence;
indexing anything but a list is collapsed to TypeError. -/
def getIdx (j : Json) (i : Nat) : Except PyErr Json :=
  match j with
  | .arr l =>
    match l.get? i with
    | some v => .ok v
    | none => .error .typeError
  | _ => .error .typeError

/-- Python `x[-i]` (`i` counted from 1 at the end) on a decoded JSON list. -/
def getNegIdx (j : Json) (i : Nat) : Except PyErr Json :=
  match j with
  | .arr l =>
    match l.get? (l.length - i) with
    | some v => .ok v
    | none => .error .typeError
  | _ => .error .typeError

/-- One insight message, as the structured content of the f-string the
source appends: each constructor carries exactly the data interpolated into
the corresponding message. -/
inductive Insight where
  | resumen (totalCasos : Rat) (temaNombre : Json) (frecuencia : Rat) (porcentaje : Rat)
  | alertaDuracion (duracionPromedio : Rat)
  | tendencia (variacion : Rat) (casosPenultimo casosUltimo : Rat)
  | temaSecundario (temaNombre : Json) (frecuencia : Json)

/-- `sum(t[.frecuencia.] for t in temas)`: left fold adding each element in
order; a missing key or non-numeric value raises as in Python. -/
def sumFrec : List Json → Rat → Except PyErr Rat
  | [], acc => .ok acc
  | t :: ts, acc =>
    match getItem t "frecuencia" with
    | .error e => .error e
    | .ok f =>
      match asNum f with
      | .error e => .error e
      | .ok fq => sumFrec ts (acc + fq)

/-- Iterating a truthy payload as Python does: list payloads iterate their
elements; iterating (or indexing) any other truthy payload ends in a raised
error in this code, collapsed to TypeError. -/
def asArr : Json → Except PyErr (List Json)
  | .arr l => .ok l
  | _ => .error .typeError

/-- The `temas` block of `_generar_insights` (summary insight and the
duration-warning insight). -/
def reglaTemas (resultados : List (String × Json)) : Except PyErr (List Insight) :=
  match getKey "temas" resultados with
  | none => .ok []
  | some j =>
    if pyTruthy j then
      match asArr j with
      | .error e => .error e
      | .ok temas =>
        match sumFrec temas 0 with
        | .error e => .error e
        | .ok totalCasos =>
          match temas with
          | [] => .ok []
          | p :: _ =>
            if pyTruthy p then
              match getItem p "frecuencia" with
              | .error e => .error e
              | .ok fj =>
                match asNum fj with
                | .error e => .error e
                | .ok frec =>
                  let porcentaje := if totalCasos > 0 then frec / totalCasos * 100 else 0
                  match getItem p "temas" with
                  | .error e => .error e
                  | .ok nombre =>
                    match getItem p "duracion_promedio" with
                    | .error e => .error e
                    | .ok dj =>
                      match asNum dj with
                      | .error e => .error e
                      | .ok dur =>
                        if dur > 300 then
                          .ok [.resumen totalCasos nombre frec porcentaje, .alertaDuracion dur]
                        else
                          .ok [.resumen totalCasos nombre frec porcentaje]
            else .ok []
    else .ok []

/-- The `temporal` block of `_generar_insights` (trend insight). When the
second-to-last case count is not positive, the conditional expression never
evaluates its true branch, so the last row is not even read. -/
def reglaTemporal (resultados : List (String × Json)) : Except PyErr (List Insight) :=
  match getKey "temporal" resultados with
  | none => .ok []
  | some j =>
    if pyTruthy j then
      match pyLen j with
      | .error e => .error e
      | .ok n =>
        if 2 ≤ n then
          match getNegIdx j 1 with
          | .error e => .error e
          | .ok ultimo =>
            match getNegIdx j 2 with
            | .error e => .error e
            | .ok penultimo =>
              match getItem penultimo "casos" with
              | .error e => .error e
              | .ok pj =>
                match asNum pj with
                | .error e => .error e
                | .ok casosPrev =>
                  if casosPrev > 0 then
                    match getItem ultimo "casos" with
                    | .error e => .error e
                    | .ok uj =>
                      match asNum uj with
                      | .error e => .error e
                      | .ok casosUlt =>
                        let variacion := (casosUlt - casosPrev) / casosPrev * 100
                        if |variacion| > 50 then
                          .ok [.tendencia variacion casosPrev casosUlt]
                        else .ok []
                  else
                    .ok []
        else .ok []
    else .ok []

/-- The secondary-topic block of `_generar_insights`. Note the source takes
`len(...)` here without a truthiness guard. -/
def reglaSecundario (resultados : List (String × Json)) : Except PyErr (List Insight) :=
  match getKey "temas" resultados with
  | none => .ok []
  | some j =>
    match pyLen j with
    | .error e => .error e
    | .ok n =>
      if 1 < n then
        match getIdx j 1 with
        | .error e => .error e
        | .ok t =>
          match getItem t "temas" with
          | .error e => .error e
          | .ok nombre =>
            match getItem t "frecuencia" with
            | .error e => .error e
            | .ok frec => .ok [.temaSecundario nombre frec]
      else .ok []

/-- `AnalisisEngine._generar_insights` (the `periodo` parameter is unused in
the source body and kept for signature fidelity). -/
def generar_insights (_lema : String) (resultados : List (String × Json))
    (_periodo : Option Periodo) : Except PyErr (List Insight) :=
  match reglaTemas resultados with
  | .error e => .error e
  | .ok a =>
    match reglaTemporal resultados with
    | .error e => .error e
    | .ok b =>
      match reglaSecundario resultados with
      | .error e => .error e
      | .ok c => .ok (a ++ b ++ c)

/-- The result of `analizar_lema`: the failure dict or the success dict. -/
inductive AnalysisResult where
  | failure (error : String) : AnalysisResult
  | success (lema : String) (periodo : Option Periodo)
      (datos : List (String × Json)) (insights : List Insight)
      (query_ejecutada : String) : AnalysisResult

/-- `AnalisisEngine.analizar_lema`, with the tabular result `df` returned by
the query-execution collaborator passed explicitly. A `.error` value is an
exception escaping to the caller. -/
def analizar_lema (lema : String) (periodo : Option Periodo) (df : List Row) :
    Except PyErr AnalysisResult :=
  let query := generar_analisis_lema lema periodo 20
  if df.isEmpty then
    .ok (.failure ("No se encontraron datos para el lema: " ++ lema))
  else
    match buildResultados df [] with
    | .error e => .error e
    | .ok resultados =>
      match generar_insights lema resultados periodo with
      | .error e => .error e
      | .ok insights => .ok (.success lema periodo resultados insights query)

/-- A generic column-named record, for `df.to_dict("records")`. -/
def Record := List (String × Json)

/-- The result of `comparar_periodos`. -/
inductive ComparacionResult where
  | failure (error : String) : ComparacionResult
  | success (lema : String) (comparacion : List Record)
      (query_ejecutada : String) : ComparacionResult

/-- `AnalisisEngine.comparar_periodos`. -/
def comparar_periodos (lema periodo1 periodo2 : String) (df : List Record) :
    ComparacionResult :=
  let query := generar_comparacion_periodos lema periodo1 periodo2
  if df.isEmpty then .failure "No hay datos para comparar"
  else .success lema df query

/-- The result of `estadisticas_generales`. -/
inductive EstadisticasResult where
  | failure (error : String) : EstadisticasResult
  | success (estadisticas : Record) : EstadisticasResult

/-- `AnalisisEngine.estadisticas_generales`. -/
def estadisticas_generales (df : List Record) : EstadisticasResult :=
  match df with
  | [] => .failure "No hay datos disponibles"
  | r :: _ => .success r

/-! ## Conversation context store (`conversacion_manager.py`) -/

/-- One history entry, as built by `agregar_mensaje`. -/
structure Entrada where
  timestamp : String
  tipo : String
  mensaje : String
  metadata : List (String × Json)

/-- The per-session context dict; all three keys start absent. -/
structure Contexto where
  ultimo_lema : Option String
  ultimo_periodo : Option Periodo
  ultimo_analisis : Option AnalysisResult

/-- The empty context dict `{}`. -/
def emptyContexto : Contexto := ⟨none, none, none⟩

/-- One session record, as created by `crear_sesion`. -/
structure Sesion where
  historial : List Entrada
  contexto : Contexto
  created_at : String

/-- The whole store: the `conversations` dict plus the construction-time
bound `max_history`. -/
structure Manager where
  conversations : List (String × Sesion)
  max_history : Nat

/-- A freshly constructed `ConversacionManager(max_history = n)`. -/
def initManager (n : Nat) : Manager := ⟨[], n⟩

/-- `ConversacionManager.crear_sesion` (timestamp passed explicitly). -/
def crear_sesion (m : Manager) (sessionId : String) (ts : String) : Manager :=
  { m with conversations := setKey sessionId ⟨[], emptyContexto, ts⟩ m.conversations }

/-- Python `lst[-n:]` for a non-negative `n`: for `n = 0` this is the whole
list (the `-0 = 0` slice pitfall), otherwise the last `n` elements. -/
def pyTailSlice {α : Type} (n : Nat) (l : List α) : List α :=
  if n = 0 then l else l.drop (l.length - n)

/-- `ConversacionManager.agregar_mensaje`, with `datetime.now().isoformat()`
passed as `ts`. -/
def agregar_mensaje (m : Manager) (sessionId mensaje tipo : String)
    (metadata : Option (List (String × Json))) (ts : String) : Manager :=
  let m1 := if (getKey sessionId m.conversations).isSome then m
            else crear_sesion m sessionId ts
  match getKey sessionId m1.conversations with
  | none => m1
  | some s =>
    let historial1 := s.historial ++ [⟨ts, tipo, mensaje, metadata.getD []⟩]
    let historial2 :=
      if m1.max_history < historial1.length then pyTailSlice m1.max_history historial1
      else historial1
    { m1 with conversations := setKey sessionId { s with historial := historial2 } m1.conversations }

/-- `ConversacionManager.actualizar_contexto`. Each argument is `none` when
omitted; a present `lema` must also be truthy (non-empty) to be written,
mirroring `if lema:`. Period and analysis dicts built by this system are
non-empty, so presence models their truthiness. -/
def actualizar_contexto (m : Manager) (sessionId : String) (lema : Option String)
    (periodo : Option Periodo) (ultimoAnalisis : Option AnalysisResult) (ts : String) : Manager :=
  let m1 := if (getKey sessionId m.conversations).isSome then m
            else crear_sesion m sessionId ts
  match getKey sessionId m1.conversations with
  | none => m1
  | some s =>
    let c0 := s.contexto
    let c1 := match lema with
      | some l => if l ≠ "" then { c0 with ultimo_lema := some l } else c0
      | none => c0
    let c2 := match periodo with
      | some p => { c1 with ultimo_periodo := some p }
      | none => c1
    let c3 := match ultimoAnalisis with
      | some a => { c2 with ultimo_analisis := some a }
      | none => c2
    { m1 with conversations := setKey sessionId { s with contexto := c3 } m1.conversations }

/-- `ConversacionManager.obtener_contexto`: a read, performs no mutation in
the source, hence a pure function of the store. -/
def obtener_contexto (m : Manager) (sessionId : String) : Contexto :=
  match getKey sessionId m.conversations with
  | none => emptyContexto
  | some s => s.contexto

/-- `ConversacionManager.obtener_historial` (`limit : Nat`; `limit = 0` is
falsy, so the source returns the whole history). A read, performs no
mutation in the source. -/
def obtener_historial (m : Manager) (sessionId : String) (limit : Nat) : List Entrada :=
  match getKey sessionId m.conversations with
  | none => []
  | some s => if limit ≠ 0 then pyTailSlice limit s.historial else s.historial

/-- `ConversacionManager.limpiar_sesion`. -/
def limpiar_sesion (m : Manager) (sessionId : String) : Manager :=
  if (getKey sessionId m.conversations).isSome then
    { m with conversations := delKey sessionId m.conversations }
  else m

/-- The sequence of appends to one session that C8 quantifies over: each
entry carries the message, role, metadata and call-time timestamp of one
`agregar_mensaje` call. -/
def runAppends (sid : String) (m : Manager) (es : List Entrada) : Manager :=
  es.foldl (fun acc e => agregar_mensaje acc sid e.mensaje e.tipo (some e.metadata) e.timestamp) m

/-! # Theorems -/

theorem getKey_setKey_self {α : Type} (k : String) (v : α) (l : List (String × α)) :
    getKey k (setKey k v l) = some v := by
  induction l with
  | nil => simp [setKey, getKey]
  | cons h t ih =>
    obtain ⟨k1, v1⟩ := h
    by_cases hk : k1 = k
    · simp [setKey, getKey, hk]
    · simp [setKey, getKey, hk, ih]

theorem delKey_id_of_none {α : Type} (k : String) (l : List (String × α))
    (h : getKey k l = none) : delKey k l = l := by
  induction l with
  | nil => simp [delKey]
  | cons hd t ih =>
    obtain ⟨k1, v1⟩ := hd
    by_cases hk : k1 = k
    · simp [getKey, hk] at h
    · simp [getKey, hk] at h
      simp [delKey, hk, ih h]

theorem getItem_ok_truthy (j : Json) (k : String) (v : Json)
    (h : getItem j k = .ok v) : pyTruthy j = true := by
  cases j with
  | obj l =>
    cases l with
    | nil => simp [getItem, List.lookup] at h
    | cons hd t => simp [pyTruthy]
  | null => simp [getItem] at h
  | bool b => simp [getItem] at h
  | num q => simp [getItem] at h
  | str s => simp [getItem] at h
  | arr l => simp [getItem] at h

theorem cache_keys_lowercase : ∀ e ∈ cache_lemas, pyLower e.1 = e.1 := by decide

/-- C1: a question whose lowercased text contains a canonical cache topic or
any of its registered variants as a substring is answered from the cache:
`analizar_pregunta` returns the first matching canonical topic in cache
insertion order, with confidence 1.0 and method cache, and the result is the
same for every behaviour of the model collaborator (the model is never
consulted). -/
theorem C1_cache_hit_deterministic (pregunta : String)
    (h : ∃ e ∈ cache_lemas, cacheEntryMatches (pyLower pregunta) e = true) :
    ∃ e ∈ cache_lemas,
      cache_lemas.find? (fun e => cacheEntryMatches (pyLower pregunta) e) = some e ∧
      ∀ (resp : ModelResponse) (now : PyDate),
        analizar_pregunta resp now pregunta =
          .ok ⟨.str e.1, extraer_periodo_temporal now pregunta, "cache", .num 1⟩ := by
  have hs : (cache_lemas.find? (fun e => cacheEntryMatches (pyLower pregunta) e)).isSome :=
    List.find?_isSome.mpr (by simpa using h)
  obtain ⟨e, hfind⟩ := Option.isSome_iff_exists.mp hs
  refine ⟨e, List.mem_of_find?_eq_some hfind, hfind, ?_⟩
  intro resp now
  have hb : buscar_en_cache pregunta = some e.1 := by
    unfold buscar_en_cache
    simp only [hfind]
    rfl
  unfold analizar_pregunta
  rw [hb]

theorem C1_witness :
    analizar_pregunta .raise ⟨2024, 5, 10⟩ "Cuantos ALQUILERES hay" =
      .ok ⟨.str "alquiler", extraer_periodo_temporal ⟨2024, 5, 10⟩ "Cuantos ALQUILERES hay",
           "cache", .num 1⟩ := by
  obtain ⟨e, -, hfind, hall⟩ :=
    C1_cache_hit_deterministic "Cuantos ALQUILERES hay"
      ⟨("alquiler", ["alquileres", "renta", "arriendo", "alquilar"]), by decide, by decide⟩
  have he : cache_lemas.find?
      (fun e => cacheEntryMatches (pyLower "Cuantos ALQUILERES hay") e) =
      some ("alquiler", ["alquileres", "renta", "arriendo", "alquilar"]) := by decide
  rw [he] at hfind
  cases hfind
  exact hall .raise ⟨2024, 5, 10⟩

/-- C2 (code evaluated at the failing input): with no cache match and a
model response that is valid JSON but lacks the `lema` field, the source
raises `KeyError` out of `analizar_pregunta` instead of returning an
extraction-result dict. -/
theorem C2_missing_field_raises :
    analizar_pregunta (.ok "\x7b\"confianza\": 0.9\x7d") ⟨2024, 1, 15⟩ "zzz" =
      .error (.keyError "lema") := by
  rfl

/-- C4 (counterexample): with no cache match and a model answer whose topic
is upper-case, `analizar_pregunta` returns the topic verbatim (PAGO), which
is not lowercase — the claimed normalization of model topics does not
exist in the code. -/
theorem C4_counterexample :
    analizar_pregunta (.ok "\x7b\"lema\": \"PAGO\"\x7d") ⟨2024, 1, 15⟩ "zzz" =
      .ok ⟨.str "PAGO", none, "llm", .num ((8 : Rat) / 10)⟩ ∧
    pyLower "PAGO" ≠ "PAGO" := by
  constructor
  · rfl
  · decide

/-- C4 (amended): cache-path topics are canonical lowercase keys; topics
from the model path are returned verbatim, exactly as the (truthy) decoded
model output holds them under the `lema` key, with no normalization; the
fallback result carries topic None. -/
theorem C4_amended_topic_provenance (pregunta : String) (resp : ModelResponse) (now : PyDate)
    (r : ExtractionResult) (h : analizar_pregunta resp now pregunta = .ok r) :
    (r.metodo = "cache" → ∃ t, r.lema = .str t ∧ pyLower t = t) ∧
    (r.metodo = "llm" → ∃ j, extraer_con_gemini resp = some j ∧ pyTruthy j = true ∧
       getItem j "lema" = .ok r.lema) ∧
    (r.metodo = "fallback" → r.lema = .null) := by
  cases hb : buscar_en_cache pregunta with
  | some t =>
    have heq : analizar_pregunta resp now pregunta =
        .ok ⟨.str t, extraer_periodo_temporal now pregunta, "cache", .num 1⟩ := by
      unfold analizar_pregunta
      rw [hb]
    rw [heq] at h
    cases h
    refine ⟨?_, ?_, ?_⟩
    · intro _
      refine ⟨t, rfl, ?_⟩
      unfold buscar_en_cache at hb
      cases hfind : cache_lemas.find?
          (fun e => cacheEntryMatches (pyLower pregunta) e) with
      | none => simp only [hfind] at hb; simp at hb
      | some e =>
        simp only [hfind] at hb
        have hb2 : some e.1 = some t := hb
        have he2 : e.1 = t := Option.some_inj.mp hb2
        rw [← he2]
        exact cache_keys_lowercase e (List.mem_of_find?_eq_some hfind)
    · intro hc; simp at hc
    · intro hc; simp at hc
  | none =>
    cases hg : extraer_con_gemini resp with
    | some j =>
      cases ht : pyTruthy j with
      | true =>
        cases hget : getItem j "lema" with
        | ok l =>
          have heq : analizar_pregunta resp now pregunta =
              .ok ⟨l, extraer_periodo_temporal now pregunta, "llm",
                   dictGetD j "confianza" (.num ((8 : Rat) / 10))⟩ := by
            unfold analizar_pregunta
            rw [hb]
            simp only [hg, ht, if_true, hget]
          rw [heq] at h
          cases h
          refine ⟨?_, ?_, ?_⟩
          · intro hc; simp at hc
          · intro _; exact ⟨j, rfl, ht, hget⟩
          · intro hc; simp at hc
        | error e =>
          have heq : analizar_pregunta resp now pregunta = .error e := by
            unfold analizar_pregunta
            rw [hb]
            simp only [hg, ht, if_true, hget]
          rw [heq] at h
          cases h
      | false =>
        have heq : analizar_pregunta resp now pregunta =
            .ok ⟨.null, extraer_periodo_temporal now pregunta, "fallback", .num 0⟩ := by
          unfold analizar_pregunta
          rw [hb]
          simp only [hg, ht]
          simp
        rw [heq] at h
        cases h
        exact ⟨fun hc => by simp at hc, fun hc => by simp at hc, fun _ => rfl⟩
    | none =>
      have heq : analizar_pregunta resp now pregunta =
          .ok ⟨.null, extraer_periodo_temporal now pregunta, "fallback", .num 0⟩ := by
        unfold analizar_pregunta
        rw [hb]
        simp only [hg]
      rw [heq] at h
      cases h
      exact ⟨fun hc => by simp at hc, fun hc => by simp at hc, fun _ => rfl⟩

theorem C4_amended_witness :
    ∃ j, extraer_con_gemini (.ok "\x7b\"lema\": \"PAGO\"\x7d") = some j ∧
      pyTruthy j = true ∧ getItem j "lema" = .ok (Json.str "PAGO") := by
  have h := C4_amended_topic_provenance "zzz"
    (.ok "\x7b\"lema\": \"PAGO\"\x7d") ⟨2024, 1, 15⟩
    ⟨.str "PAGO", none, "llm", .num ((8 : Rat) / 10)⟩ (by rfl)
  exact h.2.1 rfl

/-- C5: the period resolver is a pure function of question text and current
date, applying its rules first-match-wins: a this-month phrase gives the
current year-month; otherwise a last-month phrase gives the current date
minus a fixed 30 days, formatted year-month; otherwise a Spanish month name
gives that month in the current year; otherwise None; and every produced
filter predicate is the month-truncation comparison against value-01. -/
theorem C5_period_rules (pregunta : String) (now : PyDate) :
    (containsAny (pyLower pregunta) ["este mes", "mes actual", "del mes"] = true →
       extraer_periodo_temporal now pregunta =
         some ⟨"mes", fmtYM now, filtroMes (fmtYM now)⟩) ∧
    (containsAny (pyLower pregunta) ["este mes", "mes actual", "del mes"] = false →
     containsAny (pyLower pregunta) ["mes pasado", "último mes", "anterior"] = true →
       extraer_periodo_temporal now pregunta =
         some ⟨"mes", fmtYM (subDays 30 now), filtroMes (fmtYM (subDays 30 now))⟩) ∧
    (containsAny (pyLower pregunta) ["este mes", "mes actual", "del mes"] = false →
     containsAny (pyLower pregunta) ["mes pasado", "último mes", "anterior"] = false →
     ∀ e, meses_map.find? (fun e => strContains (pyLower pregunta) e.1) = some e →
       extraer_periodo_temporal now pregunta =
         some ⟨"mes", toString now.year ++ "-" ++ e.2,
               filtroMes (toString now.year ++ "-" ++ e.2)⟩) ∧
    (containsAny (pyLower pregunta) ["este mes", "mes actual", "del mes"] = false →
     containsAny (pyLower pregunta) ["mes pasado", "último mes", "anterior"] = false →
     meses_map.find? (fun e => strContains (pyLower pregunta) e.1) = none →
       extraer_periodo_temporal now pregunta = none) ∧
    (∀ p, extraer_periodo_temporal now pregunta = some p →
       p.filtro_sql = filtroMes p.valor) := by
  refine ⟨?_, ?_, ?_, ?_, ?_⟩
  · intro h1
    unfold extraer_periodo_temporal
    simp [h1]
  · intro h1 h2
    unfold extraer_periodo_temporal
    simp [h1, h2]
  · intro h1 h2 e he
    unfold extraer_periodo_temporal
    simp [h1, h2, he]
  · intro h1 h2 hn
    unfold extraer_periodo_temporal
    simp [h1, h2, hn]
  · intro p hp
    simp only [extraer_periodo_temporal] at hp
    split at hp
    · cases hp; rfl
    · split at hp
      · cases hp; rfl
      · split at hp
        · cases hp; rfl
        · cases hp

theorem C5_witness :
    extraer_periodo_temporal ⟨2024, 3, 31⟩ "ventas mes pasado" =
      some ⟨"mes", "2024-03", filtroMes "2024-03"⟩ := by
  have h := (C5_period_rules "ventas mes pasado" ⟨2024, 3, 31⟩).2.1 (by decide) (by decide)
  exact h

theorem pyTailSlice_pos {α : Type} (N : Nat) (hN : 1 ≤ N) (l : List α) :
    pyTailSlice N l = l.drop (l.length - N) := by
  unfold pyTailSlice
  rw [if_neg (by omega)]

theorem runAppends_append (sid : String) (m : Manager) (l : List Entrada) (e : Entrada) :
    runAppends sid m (l ++ [e]) =
      agregar_mensaje (runAppends sid m l) sid e.mensaje e.tipo (some e.metadata) e.timestamp := by
  unfold runAppends
  rw [List.foldl_append]
  rfl

theorem agregar_mensaje_existing (m : Manager) (sid : String) (s : Sesion)
    (hk : getKey sid m.conversations = some s) (msg tipo : String)
    (md : Option (List (String × Json))) (ts : String) :
    agregar_mensaje m sid msg tipo md ts =
      Manager.mk
        (setKey sid
          (Sesion.mk
            (if m.max_history < (s.historial ++ [(Entrada.mk ts tipo msg (md.getD []))]).length
             then pyTailSlice m.max_history (s.historial ++ [(Entrada.mk ts tipo msg (md.getD []))])
             else s.historial ++ [(Entrada.mk ts tipo msg (md.getD []))])
            s.contexto s.created_at)
          m.conversations)
        m.max_history := by
  unfold agregar_mensaje
  have hs : (getKey sid m.conversations).isSome = true := by rw [hk]; rfl
  rw [hs]
  simp only [if_true, hk]

theorem agregar_mensaje_fresh (m : Manager) (sid : String)
    (hk : getKey sid m.conversations = none) (msg tipo : String)
    (md : Option (List (String × Json))) (ts : String) :
    agregar_mensaje m sid msg tipo md ts =
      Manager.mk
        (setKey sid
          (Sesion.mk
            (if m.max_history < 1 then pyTailSlice m.max_history [(Entrada.mk ts tipo msg (md.getD []))]
             else [(Entrada.mk ts tipo msg (md.getD []))])
            emptyContexto ts)
          (setKey sid (Sesion.mk [] emptyContexto ts) m.conversations))
        m.max_history := by
  unfold agregar_mensaje
  have hs : (getKey sid m.conversations).isSome = false := by rw [hk]; rfl
  rw [hs]
  simp only [Bool.false_eq_true, if_false]
  unfold crear_sesion
  simp only [getKey_setKey_self, List.nil_append, List.length_cons, List.length_nil]

theorem drop_step {α : Type} (N : Nat) (hN : 1 ≤ N) (l : List α) (e : α) :
    (if N < (l.drop (l.length - N) ++ [e]).length
     then (l.drop (l.length - N) ++ [e]).drop ((l.drop (l.length - N) ++ [e]).length - N)
     else l.drop (l.length - N) ++ [e]) =
    (l ++ [e]).drop ((l ++ [e]).length - N) := by
  have hlen : (l.drop (l.length - N)).length = l.length - (l.length - N) :=
    List.length_drop _ _
  rcases Nat.lt_or_ge l.length N with hn | hn
  · have h1 : l.length - N = 0 := by omega
    rw [h1]
    simp only [List.drop_zero]
    rw [if_neg (by simp only [List.length_append, List.length_singleton]; omega)]
    have h2 : (l ++ [e]).length - N = 0 := by
      simp only [List.length_append, List.length_singleton]; omega
    rw [h2, List.drop_zero]
  · have hlfull : (l.drop (l.length - N) ++ [e]).length = N + 1 := by
      simp only [List.length_append, List.length_singleton, hlen]; omega
    rw [hlfull, if_pos (Nat.lt_succ_self N)]
    have h3 : N + 1 - N = 1 := by omega
    rw [h3]
    have h4 : (l ++ [e]).length - N = l.length + 1 - N := by
      simp only [List.length_append, List.length_singleton]
    rw [h4]
    rw [List.drop_append_of_le_length (by omega : 1 ≤ (l.drop (l.length - N)).length)]
    rw [List.drop_append_of_le_length (by omega : l.length + 1 - N ≤ l.length)]
    rw [List.drop_drop]
    have h5 : l.length - N + 1 = l.length + 1 - N := by omega
    rw [h5]

theorem runAppends_closed (N : Nat) (hN : 1 ≤ N) (sid : String) :
    ∀ es : List Entrada, es ≠ [] →
      (runAppends sid (initManager N) es).max_history = N ∧
      ∃ cr, getKey sid (runAppends sid (initManager N) es).conversations =
        some ⟨es.drop (es.length - N), emptyContexto, cr⟩ := by
  intro es
  induction es using List.reverseRecOn with
  | nil => intro h; exact absurd rfl h
  | append_singleton l e ih =>
    intro _
    rw [runAppends_append]
    rcases eq_or_ne l [] with hl | hl
    · subst hl
      have h0 : runAppends sid (initManager N) [] = initManager N := rfl
      rw [h0]
      rw [agregar_mensaje_fresh (initManager N) sid rfl]
      refine ⟨rfl, e.timestamp, ?_⟩
      have hm : (initManager N).max_history = N := rfl
      rw [hm, if_neg (by omega)]
      show getKey sid (setKey sid _ _) = _
      rw [getKey_setKey_self]
      have h1 : ([] ++ [e] : List Entrada).length - N = 0 := by
        simp only [List.nil_append, List.length_singleton]; omega
      rw [h1]
      simp only [List.nil_append, List.drop_zero]
      rfl
    · obtain ⟨hmax, cr, hk⟩ := ih hl
      rw [agregar_mensaje_existing _ _ _ hk]
      refine ⟨hmax, cr, ?_⟩
      show getKey sid (setKey sid _ _) = _
      rw [getKey_setKey_self]
      rw [hmax, pyTailSlice_pos N hN]
      exact congrArg some (congrArg (fun h => Sesion.mk h emptyContexto cr)
        (drop_step N hN l e))

/-- C8 (counterexample): with construction-time bound 0 and one append
(m = 0 + 1, k = 1 greater than 0), the stored history holds that one entry
rather than the last 0 entries: the Python slice `[-0:]` keeps the whole
list, so the bound `len(history) less-or-equal max_history` fails at
`max_history = 0`. -/
theorem C8_counterexample :
    obtener_historial (agregar_mensaje (initManager 0) "s" "hola" "usuario" none "t0") "s" 0 =
      [⟨"t0", "usuario", "hola", []⟩] ∧
    (obtener_historial (agregar_mensaje (initManager 0) "s" "hola" "usuario" none "t0")
      "s" 0).length = 1 := by
  exact ⟨rfl, rfl⟩

/-- C8 (amended, bound at least 1): for every session and every
construction-time bound N at least 1, after m = N + k appends (k greater
than 0) the stored history is exactly the last N appended messages in
chronological order, `obtener_historial` with no effective limit returns
exactly those N entries, and the length bound holds after every append. -/
theorem C8_amended_history_truncation (N : Nat) (hN : 1 ≤ N) (sid : String)
    (es : List Entrada) (k : Nat) (hk : 0 < k) (hm : es.length = N + k) :
    obtener_historial (runAppends sid (initManager N) es) sid 0 = es.drop k ∧
    (es.drop k).length = N ∧
    (∀ i, i ≤ es.length →
      (obtener_historial (runAppends sid (initManager N) (es.take i)) sid 0).length ≤ N) := by
  have hne : es ≠ [] := by
    intro h
    rw [h] at hm
    simp at hm
    omega
  obtain ⟨-, cr, hkey⟩ := runAppends_closed N hN sid es hne
  refine ⟨?_, ?_, ?_⟩
  · unfold obtener_historial
    rw [hkey]
    simp only [ne_eq, not_true_eq_false, if_false]
    have : es.length - N = k := by omega
    rw [this]
  · simp only [List.length_drop]
    omega
  · intro i hi
    rcases Nat.eq_zero_or_pos i with hz | hpos
    · subst hz
      simp only [List.take_zero]
      have : obtener_historial (runAppends sid (initManager N) []) sid 0 = [] := rfl
      rw [this]
      simp
    · have htne : es.take i ≠ [] := by
        intro h
        have := congrArg List.length h
        simp only [List.length_take, List.length_nil] at this
        omega
      obtain ⟨-, cr2, hkey2⟩ := runAppends_closed N hN sid (es.take i) htne
      unfold obtener_historial
      rw [hkey2]
      simp only [ne_eq, not_true_eq_false, if_false]
      simp only [List.length_drop]
      omega

theorem C8_amended_witness :
    obtener_historial
      (runAppends "s" (initManager 2)
        [⟨"t1", "u", "m1", []⟩, ⟨"t2", "u", "m2", []⟩, ⟨"t3", "u", "m3", []⟩]) "s" 0 =
      [⟨"t2", "u", "m2", []⟩, ⟨"t3", "u", "m3", []⟩] := by
  have h := C8_amended_history_truncation 2 (by decide) "s"
    [⟨"t1", "u", "m1", []⟩, ⟨"t2", "u", "m2", []⟩, ⟨"t3", "u", "m3", []⟩] 1
    (by decide) (by decide)
  exact h.1

/-- C9: context fields are updated independently — setting only the topic
and then only the period leaves both stored; and any update call that omits
a field leaves that stored field unchanged. -/
theorem C9_context_field_independence (m : Manager) (sid : String) (x : String) (hx : x ≠ "")
    (P : Periodo) (ts1 ts2 : String) :
    ((obtener_contexto (actualizar_contexto (actualizar_contexto m sid (some x) none none ts1)
        sid none (some P) none ts2) sid).ultimo_lema = some x ∧
     (obtener_contexto (actualizar_contexto (actualizar_contexto m sid (some x) none none ts1)
        sid none (some P) none ts2) sid).ultimo_periodo = some P) ∧
    (∀ (per : Option Periodo) (ua : Option AnalysisResult) (ts : String),
       (obtener_contexto (actualizar_contexto m sid none per ua ts) sid).ultimo_lema =
         (obtener_contexto m sid).ultimo_lema) ∧
    (∀ (lem : Option String) (ua : Option AnalysisResult) (ts : String),
       (obtener_contexto (actualizar_contexto m sid lem none ua ts) sid).ultimo_periodo =
         (obtener_contexto m sid).ultimo_periodo) ∧
    (∀ (lem : Option String) (per : Option Periodo) (ts : String),
       (obtener_contexto (actualizar_contexto m sid lem per none ts) sid).ultimo_analisis =
         (obtener_contexto m sid).ultimo_analisis) := by
  refine ⟨?_, ?_, ?_, ?_⟩
  · cases hex : getKey sid m.conversations with
    | none =>
      constructor <;>
        simp [actualizar_contexto, obtener_contexto, crear_sesion, hex,
              getKey_setKey_self, hx]
    | some s =>
      constructor <;>
        simp [actualizar_contexto, obtener_contexto, crear_sesion, hex,
              getKey_setKey_self, hx]
  · intro per ua ts
    cases hex : getKey sid m.conversations with
    | none =>
      cases per <;> cases ua <;>
        simp [actualizar_contexto, obtener_contexto, crear_sesion, hex,
              getKey_setKey_self, emptyContexto]
    | some s =>
      cases per <;> cases ua <;>
        simp [actualizar_contexto, obtener_contexto, crear_sesion, hex,
              getKey_setKey_self]
  · intro lem ua ts
    cases hex : getKey sid m.conversations with
    | none =>
      cases lem with
      | none =>
        cases ua <;>
          simp [actualizar_contexto, obtener_contexto, crear_sesion, hex,
                getKey_setKey_self, emptyContexto]
      | some l =>
        by_cases hl : l = "" <;> cases ua <;>
          simp [actualizar_contexto, obtener_contexto, crear_sesion, hex,
                getKey_setKey_self, emptyContexto, hl]
    | some s =>
      cases lem with
      | none =>
        cases ua <;>
          simp [actualizar_contexto, obtener_contexto, crear_sesion, hex,
                getKey_setKey_self]
      | some l =>
        by_cases hl : l = "" <;> cases ua <;>
          simp [actualizar_contexto, obtener_contexto, crear_sesion, hex,
                getKey_setKey_self, hl]
  · intro lem per ts
    cases hex : getKey sid m.conversations with
    | none =>
      cases lem with
      | none =>
        cases per <;>
          simp [actualizar_contexto, obtener_contexto, crear_sesion, hex,
                getKey_setKey_self, emptyContexto]
      | some l =>
        by_cases hl : l = "" <;> cases per <;>
          simp [actualizar_contexto, obtener_contexto, crear_sesion, hex,
                getKey_setKey_self, emptyContexto, hl]
    | some s =>
      cases lem with
      | none =>
        cases per <;>
          simp [actualizar_contexto, obtener_contexto, crear_sesion, hex,
                getKey_setKey_self]
      | some l =>
        by_cases hl : l = "" <;> cases per <;>
          simp [actualizar_contexto, obtener_contexto, crear_sesion, hex,
                getKey_setKey_self, hl]

theorem C9_witness :
    (obtener_contexto (actualizar_contexto (actualizar_contexto (initManager 10) "s"
        (some "x") none none "t1") "s" none (some ⟨"mes", "2024-01", "f"⟩) none "t2")
      "s").ultimo_lema = some "x" ∧
    (obtener_contexto (actualizar_contexto (actualizar_contexto (initManager 10) "s"
        (some "x") none none "t1") "s" none (some ⟨"mes", "2024-01", "f"⟩) none "t2")
      "s").ultimo_periodo = some ⟨"mes", "2024-01", "f"⟩ :=
  (C9_context_field_independence (initManager 10) "s" "x" (by decide)
    ⟨"mes", "2024-01", "f"⟩ "t1" "t2").1

/-- C10: reads and deletes on an unknown session are safe no-ops — the
context read gives the empty context, the history read gives the empty
list, deleting returns without error leaving the store unchanged — while
the two write operations create the session lazily. -/
theorem C10_unknown_session_safe (m : Manager) (sid : String) (limit : Nat)
    (h : getKey sid m.conversations = none)
    (msg tipo ts : String) (md : Option (List (String × Json)))
    (lem : Option String) (per : Option Periodo) (ua : Option AnalysisResult) :
    obtener_contexto m sid = emptyContexto ∧
    obtener_historial m sid limit = [] ∧
    limpiar_sesion m sid = m ∧
    (getKey sid (agregar_mensaje m sid msg tipo md ts).conversations).isSome = true ∧
    (getKey sid (actualizar_contexto m sid lem per ua ts).conversations).isSome = true := by
  refine ⟨?_, ?_, ?_, ?_, ?_⟩
  · unfold obtener_contexto
    rw [h]
  · unfold obtener_historial
    rw [h]
  · unfold limpiar_sesion
    rw [h]
    simp
  · rw [agregar_mensaje_fresh m sid h]
    simp only [getKey_setKey_self, Option.isSome_some]
  · unfold actualizar_contexto
    have hs : (getKey sid m.conversations).isSome = false := by rw [h]; rfl
    rw [hs]
    simp only [Bool.false_eq_true, if_false]
    unfold crear_sesion
    simp only [getKey_setKey_self]
    simp only [getKey_setKey_self, Option.isSome_some]

theorem generar_insights_parts (lema : String) (res : List (String × Json))
    (per : Option Periodo) (ins : List Insight)
    (h : generar_insights lema res per = .ok ins) :
    ∃ a b c, reglaTemas res = .ok a ∧ reglaTemporal res = .ok b ∧
      reglaSecundario res = .ok c ∧ ins = a ++ b ++ c := by
  unfold generar_insights at h
  cases hA : reglaTemas res with
  | error e => rw [hA] at h; cases h
  | ok a =>
    rw [hA] at h
    cases hB : reglaTemporal res with
    | error e => rw [hB] at h; cases h
    | ok b =>
      rw [hB] at h
      cases hC : reglaSecundario res with
      | error e => rw [hC] at h; cases h
      | ok c =>
        rw [hC] at h
        cases h
        exact ⟨a, b, c, rfl, rfl, rfl, rfl⟩

theorem reglaTemas_shape (res : List (String × Json)) (a : List Insight)
    (h : reglaTemas res = .ok a) :
    ∀ x ∈ a, (∃ t n f pc, x = .resumen t n f pc) ∨ (∃ d, x = .alertaDuracion d) := by
  unfold reglaTemas at h
  repeat' split at h
  all_goals try cases h
  all_goals intro x hx
  all_goals simp only [List.mem_singleton, List.mem_cons, List.not_mem_nil, or_false] at hx
  all_goals first
    | exact hx.elim
    | exact Or.inl ⟨_, _, _, _, hx⟩
    | exact Or.inr ⟨_, hx⟩
    | (rcases hx with hx | hx
       · exact Or.inl ⟨_, _, _, _, hx⟩
       · exact Or.inr ⟨_, hx⟩)

theorem reglaTemporal_shape (res : List (String × Json)) (b : List Insight)
    (h : reglaTemporal res = .ok b) :
    b = [] ∨ ∃ v cp cu, b = [.tendencia v cp cu] := by
  unfold reglaTemporal at h
  repeat' (first | split at h | simp only [] at h)
  all_goals try cases h
  all_goals first
    | exact Or.inl rfl
    | exact Or.inr ⟨_, _, _, rfl⟩

theorem reglaSecundario_shape (res : List (String × Json)) (c : List Insight)
    (h : reglaSecundario res = .ok c) :
    c = [] ∨ ∃ n f, c = [.temaSecundario n f] := by
  unfold reglaSecundario at h
  repeat' split at h
  all_goals try cases h
  all_goals first
    | exact Or.inl rfl
    | exact Or.inr ⟨_, _, rfl⟩

theorem alerta_mem_parts (a b c : List Insight)
    (hb : b = [] ∨ ∃ v cp cu, b = [.tendencia v cp cu])
    (hc : c = [] ∨ ∃ n f, c = [.temaSecundario n f])
    (d : Rat) (h : Insight.alertaDuracion d ∈ a ++ b ++ c) :
    Insight.alertaDuracion d ∈ a := by
  rcases List.mem_append.mp h with h1 | h2
  · rcases List.mem_append.mp h1 with h1a | h1b
    · exact h1a
    · exfalso
      rcases hb with rfl | ⟨v, cp, cu, rfl⟩ <;> simp at h1b
  · exfalso
    rcases hc with rfl | ⟨n, f, rfl⟩ <;> simp at h2

theorem tendencia_mem_parts (a b c : List Insight)
    (ha : ∀ x ∈ a, (∃ t n f pc, x = .resumen t n f pc) ∨ (∃ d, x = .alertaDuracion d))
    (hc : c = [] ∨ ∃ n f, c = [.temaSecundario n f])
    (v cp cu : Rat) (h : Insight.tendencia v cp cu ∈ a ++ b ++ c) :
    Insight.tendencia v cp cu ∈ b := by
  rcases List.mem_append.mp h with h1 | h2
  · rcases List.mem_append.mp h1 with h1a | h1b
    · exfalso
      rcases ha _ h1a with ⟨t, n, f, pc, hx⟩ | ⟨d, hx⟩ <;> simp at hx
    · exact h1b
  · exfalso
    rcases hc with rfl | ⟨n, f, rfl⟩ <;> simp at h2

/-- C3 (code evaluated at the failing input): the synthesized UNION query
yields one `temas` row and one `temporal` row with NULL `datos` whenever no
case matches the topic (an aggregate over an empty set), and on that very
result `analizar_lema` raises TypeError — the secondary-topic rule takes
`len` of the null payload without a truthiness guard — instead of
returning a tagged result dict. -/
theorem C3_null_payload_raises :
    analizar_lema "pago" none
      [Row.mk "temas" (.native .null), Row.mk "temporal" (.native .null)] =
      .error .typeError := rfl

/-- C3 (a second raising input): a non-empty tabular result whose `datos`
payload is a string that is not valid JSON makes `analizar_lema` raise
ValueError out of `json.loads` instead of returning a tagged result
dict. -/
theorem C3_counterexample :
    analizar_lema "pago" none [Row.mk "temas" (.str "x")] = .error .valueError := rfl

/-- C3 (amended): restricted to result sets whose payloads decode and whose
decoded values are well-typed for the insight rules, the three engine entry
points return a tagged result: zero rows give the structured failure (for
`analizar_lema` naming the topic), any other result gives the structured
success dict. -/
theorem C3_amended_structured_results (lema : String) (periodo : Option Periodo)
    (df : List Row) (m : List (String × Json)) (ins : List Insight) (p1 p2 : String)
    (dfc dfs : List Record) :
    (analizar_lema lema periodo [] =
      .ok (.failure ("No se encontraron datos para el lema: " ++ lema))) ∧
    (df ≠ [] → buildResultados df [] = .ok m → generar_insights lema m periodo = .ok ins →
      analizar_lema lema periodo df =
        .ok (.success lema periodo m ins (generar_analisis_lema lema periodo 20))) ∧
    (comparar_periodos lema p1 p2 [] = .failure "No hay datos para comparar") ∧
    (dfc ≠ [] → comparar_periodos lema p1 p2 dfc =
      .success lema dfc (generar_comparacion_periodos lema p1 p2)) ∧
    (estadisticas_generales [] = .failure "No hay datos disponibles") ∧
    (∀ r rs, dfs = r :: rs → estadisticas_generales dfs = .success r) := by
  refine ⟨rfl, ?_, rfl, ?_, rfl, ?_⟩
  · intro hne hb hi
    unfold analizar_lema
    have he : df.isEmpty = false := by
      cases df with
      | nil => exact absurd rfl hne
      | cons a t => rfl
    rw [he]
    simp only [Bool.false_eq_true, if_false]
    simp only [hb, hi]
  · intro hne
    unfold comparar_periodos
    have he : dfc.isEmpty = false := by
      cases dfc with
      | nil => exact absurd rfl hne
      | cons a t => rfl
    rw [he]
    simp only [Bool.false_eq_true, if_false]
  · intro r rs hd
    subst hd
    rfl

theorem C3_amended_witness :
    analizar_lema "pago" none [Row.mk "temas" (.native (.arr []))] =
      .ok (.success "pago" none [("temas", Json.arr [])] []
        (generar_analisis_lema "pago" none 20)) :=
  (C3_amended_structured_results "pago" none [Row.mk "temas" (.native (.arr []))]
    [("temas", Json.arr [])] [] "a" "b" [] []).2.1 (by simp) rfl rfl

/-- C6: given a result map whose `temas` list is non-empty and whose first
row carries a numeric average duration d, the complexity-warning insight is
in the output exactly when d is strictly greater than 300 (so not at
exactly 300), and any emitted warning carries that d. -/
theorem C6_duration_warning_threshold (lema : String) (res : List (String × Json))
    (per : Option Periodo) (p : Json) (rest : List Json)
    (hres : getKey "temas" res = some (.arr (p :: rest)))
    (dj : Json) (hdj : getItem p "duracion_promedio" = .ok dj)
    (d : Rat) (hdn : asNum dj = .ok d)
    (ins : List Insight) (hins : generar_insights lema res per = .ok ins) :
    ((∃ d2, Insight.alertaDuracion d2 ∈ ins) ↔ d > 300) ∧
    (∀ d2, Insight.alertaDuracion d2 ∈ ins → d2 = d) := by
  obtain ⟨a, b, c, hA, hB, hC, hcat⟩ := generar_insights_parts _ _ _ _ hins
  have hbs := reglaTemporal_shape res b hB
  have hcs := reglaSecundario_shape res c hC
  have htr : pyTruthy p = true := getItem_ok_truthy p "duracion_promedio" dj hdj
  have hpt : pyTruthy (Json.arr (p :: rest)) = true := rfl
  unfold reglaTemas at hA
  simp only [hres, hpt, if_true, asArr] at hA
  cases hsum : sumFrec (p :: rest) 0 with
  | error e => simp [hsum] at hA
  | ok total =>
    simp only [hsum, htr, if_true] at hA
    cases hfr : getItem p "frecuencia" with
    | error e => simp [hfr] at hA
    | ok fj =>
      simp only [hfr] at hA
      cases hfn : asNum fj with
      | error e => simp [hfn] at hA
      | ok frec =>
        simp only [hfn] at hA
        cases hnm : getItem p "temas" with
        | error e => simp [hnm] at hA
        | ok nombre =>
          simp only [hnm, hdj, hdn] at hA
          subst hcat
          by_cases hd : d > 300
          · rw [if_pos hd] at hA
            injection hA with hA2
            subst hA2
            refine ⟨⟨fun _ => hd, fun _ => ⟨d, by simp⟩⟩, ?_⟩
            intro d2 hd2
            have hmem := alerta_mem_parts _ _ _ hbs hcs d2 hd2
            simp only [List.mem_cons, List.mem_singleton, List.not_mem_nil,
              or_false] at hmem
            rcases hmem with hx | hx
            · exact absurd hx (by simp)
            · injection hx
          · rw [if_neg hd] at hA
            injection hA with hA2
            subst hA2
            refine ⟨⟨?_, fun hdd => absurd hdd hd⟩, ?_⟩
            · rintro ⟨d2, hd2⟩
              have hmem := alerta_mem_parts _ _ _ hbs hcs d2 hd2
              simp at hmem
            · intro d2 hd2
              have hmem := alerta_mem_parts _ _ _ hbs hcs d2 hd2
              simp at hmem

theorem C6_witness :
    ∃ ins, generar_insights "x"
        [("temas", Json.arr [.obj [("temas", .str "a"), ("frecuencia", .num 10),
          ("duracion_promedio", .num 400)]])] none = .ok ins ∧
      ∃ d2, Insight.alertaDuracion d2 ∈ ins := by
  refine ⟨_, rfl, ?_⟩
  have h := C6_duration_warning_threshold "x"
    [("temas", Json.arr [.obj [("temas", .str "a"), ("frecuencia", .num 10),
      ("duracion_promedio", .num 400)]])] none
    (.obj [("temas", .str "a"), ("frecuencia", .num 10), ("duracion_promedio", .num 400)])
    [] rfl (.num 400) rfl 400 rfl _ rfl
  exact h.1.mpr (by norm_num)

/-- C7: with a temporal series of at least two points whose second-to-last
case count is the numeric cp, the rule is division-safe — cp = 0 yields the
sentinel variation 0 and no trend insight, without even reading the last
row — and when the last count cu is also numeric, the trend insight is in
the output exactly when the absolute variation (computed as
(cu - cp)/cp*100 when cp is positive, else 0) strictly exceeds 50. -/
theorem C7_trend_threshold (lema : String) (res : List (String × Json))
    (per : Option Periodo) (temporal : List Json)
    (hres : getKey "temporal" res = some (.arr temporal))
    (hlen : 2 ≤ temporal.length)
    (penult : Json) (hp : temporal.get? (temporal.length - 2) = some penult)
    (pj : Json) (hpj : getItem penult "casos" = .ok pj)
    (cp : Rat) (hcp : asNum pj = .ok cp)
    (ins : List Insight) (hins : generar_insights lema res per = .ok ins) :
    (cp = 0 → reglaTemporal res = .ok [] ∧ ¬ ∃ v x y, Insight.tendencia v x y ∈ ins) ∧
    (∀ ult, temporal.get? (temporal.length - 1) = some ult →
     ∀ uj, getItem ult "casos" = .ok uj → ∀ cu, asNum uj = .ok cu →
       (Insight.tendencia (if 0 < cp then (cu - cp) / cp * 100 else 0) cp cu ∈ ins ↔
         50 < |if 0 < cp then (cu - cp) / cp * 100 else 0|)) := by
  obtain ⟨a, b, c, hA, hB, hC, hcat⟩ := generar_insights_parts _ _ _ _ hins
  have has := reglaTemas_shape res a hA
  have hcs := reglaSecundario_shape res c hC
  have hB0 := hB
  have hpt : pyTruthy (Json.arr temporal) = true := by
    cases temporal with
    | nil => simp at hlen
    | cons x t => rfl
  unfold reglaTemporal at hB
  simp only [hres, hpt, if_true, pyLen, hlen, getNegIdx] at hB
  cases hu : temporal.get? (temporal.length - 1) with
  | none =>
    exfalso
    have := List.get?_eq_none.mp hu
    omega
  | some ult =>
    simp only [hu, hp, hpj, hcp] at hB
    refine ⟨?_, ?_⟩
    · intro hz
      subst hz
      rw [if_neg (by norm_num)] at hB
      injection hB with hB2
      subst hB2
      refine ⟨by simpa using hB0, ?_⟩
      rintro ⟨v, x, y, hmem⟩
      subst hcat
      have := tendencia_mem_parts _ _ _ has hcs v x y hmem
      simp at this
    · intro ult2 hu2 uj huj cu hcu
      try rw [hu] at hu2
      injection hu2 with hu3
      subst hu3
      subst hcat
      by_cases hpos : 0 < cp
      · rw [if_pos hpos] at hB
        simp only [huj, hcu] at hB
        simp only [if_pos hpos]
        by_cases hv : |(cu - cp) / cp * 100| > 50
        · rw [if_pos hv] at hB
          injection hB with hB2
          subst hB2
          exact ⟨fun _ => hv, fun _ => by simp⟩
        · rw [if_neg hv] at hB
          injection hB with hB2
          subst hB2
          constructor
          · intro hmem
            have := tendencia_mem_parts _ _ _ has hcs _ _ _ hmem
            simp at this
          · intro hgt
            exact absurd hgt hv
      · rw [if_neg hpos] at hB
        injection hB with hB2
        subst hB2
        simp only [if_neg hpos]
        constructor
        · intro hmem
          have := tendencia_mem_parts _ _ _ has hcs _ _ _ hmem
          simp at this
        · intro hgt
          rw [abs_zero] at hgt
          exact absurd hgt (by norm_num)

theorem C7_witness :
    reglaTemporal [("temporal", Json.arr [.obj [("casos", .num 0)],
      .obj [("casos", .num 5)]])] = .ok [] := by
  have h := C7_trend_threshold "x"
    [("temporal", Json.arr [.obj [("casos", .num 0)], .obj [("casos", .num 5)]])] none
    [.obj [("casos", .num 0)], .obj [("casos", .num 5)]] rfl (by decide)
    (.obj [("casos", .num 0)]) rfl (.num 0) rfl 0 rfl [] rfl
  exact (h.1 rfl).1

theorem C10_witness :
    obtener_contexto (initManager 3) "s" = emptyContexto ∧
    obtener_historial (initManager 3) "s" 5 = [] ∧
    limpiar_sesion (initManager 3) "s" = initManager 3 ∧
    (getKey "s" (agregar_mensaje (initManager 3) "s" "hola" "usuario" none "t").conversations).isSome
      = true ∧
    (getKey "s" (actualizar_contexto (initManager 3) "s" (some "pago") none none
        "t").conversations).isSome = true :=
  C10_unknown_session_safe (initManager 3) "s" 5 rfl "hola" "usuario" "t" none
    (some "pago") none none

end Kriton
